import Mathlib

/-!
Verification of the status-tracker concurrency core of `pynamodb_mate`
(the `patterns.status_tracker` module), as described in the project
specification and exercised by the crawler-metadata notebook
(`docs/source/08-Use-DynamoDB-as-Crawler-Metadata-Store-Backend/index.ipynb`).

The repository snapshot ships only documentation (README, release history,
notebooks), not the Python module itself, so the definitions below are
modelled from the specification text, with the notebook's recorded inputs
and outputs (the `'__not_locked__'` sentinel, epoch `lock_time`, the
`'crawler____010____001'` value encoding, status codes 10/20/30/40/50)
used as concrete anchors.

Timestamps are modelled as natural numbers (seconds since the Unix epoch);
the persistent table is a list of task records with at most one record per
key; DynamoDB conditional writes are modelled by the fact that each
transition is a single atomic function from store to store, so arbitrary
interleavings of single-item operations coincide with their serializations.
-/

namespace StatusTracker

/-- Modelled from the spec: the sentinel string marking an unlocked task,
as recorded verbatim in the notebook output (`lock='__not_locked__'`). -/
def NOT_LOCKED : String := "__not_locked__"

/-- Modelled from the spec: a fresh task's `lock_time` is the Unix epoch
(`datetime(1970, 1, 1)` in the notebook output), i.e. second 0. -/
def EPOCH : Nat := 0

/-- Modelled from the spec: the separator used in composite `key` and
`value` strings (`'crawler____aHR0...'`, `'crawler____010____001'`). -/
def SEP : String := "____"

/-- Modelled from the spec: `stable_hash` is a deterministic pure hash of
the task id (the implementation uses a digest of the id; any fixed pure
function satisfies the spec's determinism requirement). -/
def stable_hash (s : String) : Nat :=
  s.data.foldl (fun acc c => (acc * 31 + c.toNat) % (2 ^ 32)) 7

/-- Modelled from the spec: shard assignment
`shard_index = stable_hash(task_id) mod shard_count_for_status`. -/
def get_shard_index (task_id : String) (shard_count : Nat) : Nat :=
  stable_hash task_id % shard_count

/-- Modelled from the spec: left-pad the decimal rendering of a number
with zeros to the configured width (`10` at width 3 renders as `"010"`). -/
def zfill (n width : Nat) : String :=
  let s := Nat.repr n
  String.mk (List.replicate (width - s.length) '0') ++ s

/-- Modelled from the spec: the composite sortable `value` string
`use_case_id ++ SEP ++ padded status ++ SEP ++ padded shard number`;
the rendered shard number is one-based (`shard_index + 1`), matching the
notebook output `value='crawler____010____001'` with a single shard. -/
def make_value (use_case_id : String) (status shard_index status_pad shard_pad : Nat) :
    String :=
  use_case_id ++ SEP ++ zfill status status_pad ++ SEP ++ zfill (shard_index + 1) shard_pad

/-- Modelled from the spec: the composite partition key
`use_case_id ++ SEP ++ task_id`. -/
def make_key (use_case_id task_id : String) : String :=
  use_case_id ++ SEP ++ task_id

/-- Modelled from the spec: the immutable tracker configuration binding a
use case to its status vocabulary and operational policy. -/
structure TrackerConfig where
  use_case_id : String
  pending_status : Nat
  in_progress_status : Nat
  failed_status : Nat
  succeeded_status : Nat
  ignored_status : Nat
  n_pending_shard : Nat
  n_in_progress_shard : Nat
  n_failed_shard : Nat
  n_succeeded_shard : Nat
  n_ignored_shard : Nat
  status_zero_pad : Nat
  status_shard_zero_pad : Nat
  max_retry : Nat
  lock_expire_seconds : Nat
deriving DecidableEq

/-- Modelled from the spec: one violated construction constraint, reported
inside `InvalidConfigError`. -/
inductive ConfigError where
  | missing_status (name : String)
  | non_positive_shard_count (name : String)
  | negative_max_retry
  | non_positive_lock_expire
deriving DecidableEq

/-- Modelled from the spec: the raw arguments of `TrackerConfig.make`;
statuses are optional (presence is validated), numeric policy fields are
integers so that the sign constraints are meaningful. -/
structure TrackerConfigArgs where
  use_case_id : String
  pending_status : Option Nat
  in_progress_status : Option Nat
  failed_status : Option Nat
  succeeded_status : Option Nat
  ignored_status : Option Nat
  n_pending_shard : Int
  n_in_progress_shard : Int
  n_failed_shard : Int
  n_succeeded_shard : Int
  n_ignored_shard : Int
  status_zero_pad : Nat
  status_shard_zero_pad : Nat
  max_retry : Int
  lock_expire_seconds : Int
deriving DecidableEq

/-- Modelled from the spec: collect every violated construction
constraint, in declaration order, not only the first one. -/
def validate_config (a : TrackerConfigArgs) : List ConfigError :=
  (if a.pending_status.isNone then [ConfigError.missing_status "pending"] else []) ++
  (if a.in_progress_status.isNone then [ConfigError.missing_status "in_progress"] else []) ++
  (if a.failed_status.isNone then [ConfigError.missing_status "failed"] else []) ++
  (if a.succeeded_status.isNone then [ConfigError.missing_status "succeeded"] else []) ++
  (if a.ignored_status.isNone then [ConfigError.missing_status "ignored"] else []) ++
  (if a.n_pending_shard ≤ 0 then [ConfigError.non_positive_shard_count "pending"] else []) ++
  (if a.n_in_progress_shard ≤ 0 then [ConfigError.non_positive_shard_count "in_progress"] else []) ++
  (if a.n_failed_shard ≤ 0 then [ConfigError.non_positive_shard_count "failed"] else []) ++
  (if a.n_succeeded_shard ≤ 0 then [ConfigError.non_positive_shard_count "succeeded"] else []) ++
  (if a.n_ignored_shard ≤ 0 then [ConfigError.non_positive_shard_count "ignored"] else []) ++
  (if a.max_retry < 0 then [ConfigError.negative_max_retry] else []) ++
  (if a.lock_expire_seconds ≤ 0 then [ConfigError.non_positive_lock_expire] else [])

/-- Modelled from the spec: `TrackerConfig.make` validates its arguments
and either fails with `InvalidConfigError` carrying the full list of
violated constraints, or produces the immutable configuration. -/
def TrackerConfig.make (a : TrackerConfigArgs) : Except (List ConfigError) TrackerConfig :=
  match validate_config a with
  | [] =>
    Except.ok
      { use_case_id := a.use_case_id
        pending_status := a.pending_status.getD 0
        in_progress_status := a.in_progress_status.getD 0
        failed_status := a.failed_status.getD 0
        succeeded_status := a.succeeded_status.getD 0
        ignored_status := a.ignored_status.getD 0
        n_pending_shard := a.n_pending_shard.toNat
        n_in_progress_shard := a.n_in_progress_shard.toNat
        n_failed_shard := a.n_failed_shard.toNat
        n_succeeded_shard := a.n_succeeded_shard.toNat
        n_ignored_shard := a.n_ignored_shard.toNat
        status_zero_pad := a.status_zero_pad
        status_shard_zero_pad := a.status_shard_zero_pad
        max_retry := a.max_retry.toNat
        lock_expire_seconds := a.lock_expire_seconds.toNat }
  | errs => Except.error errs

/-- Modelled from the spec: the per-status shard count declared by the
configuration (statuses outside the declared vocabulary are rejected by
the real code with `InvalidStatusError`; no verified claim exercises that
path, so an unused default of 1 stands in for it). -/
def TrackerConfig.shard_count_of (cfg : TrackerConfig) (st : Nat) : Nat :=
  if st = cfg.pending_status then cfg.n_pending_shard
  else if st = cfg.in_progress_status then cfg.n_in_progress_shard
  else if st = cfg.failed_status then cfg.n_failed_shard
  else if st = cfg.succeeded_status then cfg.n_succeeded_shard
  else if st = cfg.ignored_status then cfg.n_ignored_shard
  else 1

/-- Modelled from the spec: the default allowed-start set is
`[pending, failed]`; callers may widen it via `allowed_status`. -/
def default_allowed (cfg : TrackerConfig) : List Nat :=
  [cfg.pending_status, cfg.failed_status]

/-- Modelled from the spec: one structured entry of `errors.history` —
message, timestamp, optional traceback. -/
structure ErrorEntry where
  message : String
  time : Nat
  traceback : Option String
deriving DecidableEq

/-- Modelled from the spec: the persistent task record. The ordered
failure history `errors.history` is carried as `errors_history`; `data` is
the free-form user payload. -/
structure Task where
  key : String
  value : String
  status : Nat
  lock : String
  lock_time : Nat
  retry : Nat
  create_time : Nat
  update_time : Nat
  data : List (String × String)
  errors_history : List ErrorEntry
deriving DecidableEq

/-- Modelled from the spec: the task id recovered from the composite
partition key by dropping the `use_case_id ++ SEP` part. -/
def Task.task_id (cfg : TrackerConfig) (t : Task) : String :=
  t.key.drop (cfg.use_case_id.length + SEP.length)

/-- Modelled from the spec: recompute the sortable `value` string for a
task entering status `st`, re-deriving the shard deterministically from
the task id. -/
def Task.recompute_value (cfg : TrackerConfig) (t : Task) (st : Nat) : String :=
  make_value cfg.use_case_id st
    (get_shard_index (Task.task_id cfg t) (cfg.shard_count_of st))
    cfg.status_zero_pad cfg.status_shard_zero_pad

/-- Modelled from the spec: the key-value table holding at most one task
record per `key` (DynamoDB provides read-after-write consistency per
item, so a list with unique keys is an adequate model). -/
abbrev Store := List Task

/-- Modelled from the spec: single-item get by partition key. -/
def Store.get_one_or_none (s : Store) (k : String) : Option Task :=
  s.find? (fun t => t.key == k)

/-- Modelled from the spec: single-item put, replacing any existing record
with the same key so that exactly one record per key is kept. -/
def Store.put (s : Store) (t : Task) : Store :=
  t :: s.filter (fun u => u.key != t.key)

/-- Modelled from the spec: fresh opaque lock token generation; the real
implementation draws a random identifier, modelled here as an injective
function of a freshness nonce, so distinct draws yield distinct tokens. -/
def fresh_token (nonce : Nat) : String :=
  String.mk ('L' :: 'K' :: List.replicate nonce '0')

/-- Modelled from the spec: build a brand new task record —
status = pending, lock = unlocked sentinel, lock_time = epoch, retry = 0,
empty payload and failure history, `value` derived from the pending
status and the task's deterministic shard. -/
def Task.make (cfg : TrackerConfig) (task_id : String) (now : Nat) : Task :=
  { key := make_key cfg.use_case_id task_id
    value := make_value cfg.use_case_id cfg.pending_status
      (get_shard_index task_id cfg.n_pending_shard)
      cfg.status_zero_pad cfg.status_shard_zero_pad
    status := cfg.pending_status
    lock := NOT_LOCKED
    lock_time := EPOCH
    retry := 0
    create_time := now
    update_time := now
    data := []
    errors_history := [] }

/-- Modelled from the spec: `make_and_save` builds the new task and writes
it to the table, returning both. -/
def Task.make_and_save (cfg : TrackerConfig) (s : Store) (task_id : String) (now : Nat) :
    Task × Store :=
  let t := Task.make cfg task_id now
  (t, Store.put s t)

/-- Modelled from the spec: the failure taxonomy of `start()`. -/
inductive StartError where
  | taskNotFoundError
  | taskNotStartableError
  | taskLockedError
deriving DecidableEq

/-- Modelled from the spec: the in-place mutation performed by a winning
`start()` — fresh lock token, lock_time = now, status = in_progress,
value recomputed, update_time = now. -/
def Task.set_in_progress (cfg : TrackerConfig) (t : Task) (nonce now : Nat) : Task :=
  { t with
    status := cfg.in_progress_status
    lock := fresh_token nonce
    lock_time := now
    update_time := now
    value := Task.recompute_value cfg t cfg.in_progress_status }

/-- Modelled from the spec: `start()` as a single atomic conditional
write: succeed and mutate the item only when the status is in the
allowed-start set and the lock is free or stale; otherwise raise the
matching error and leave the table untouched. -/
def Task.start (cfg : TrackerConfig) (s : Store) (task_id : String)
    (allowed : List Nat) (nonce now : Nat) : Except StartError Task × Store :=
  match Store.get_one_or_none s (make_key cfg.use_case_id task_id) with
  | none => (Except.error StartError.taskNotFoundError, s)
  | some t =>
    if t.status ∈ allowed then
      if t.lock = NOT_LOCKED ∨ t.lock_time + cfg.lock_expire_seconds < now then
        let t2 := Task.set_in_progress cfg t nonce now
        (Except.ok t2, Store.put s t2)
      else (Except.error StartError.taskLockedError, s)
    else (Except.error StartError.taskNotStartableError, s)

/-- Modelled from the spec: the terminal transition after the business
logic completes normally — status = succeeded, lock restored to the
unlocked sentinel, lock_time = now, value recomputed. -/
def Task.on_success (cfg : TrackerConfig) (t : Task) (now : Nat) : Task :=
  { t with
    status := cfg.succeeded_status
    lock := NOT_LOCKED
    lock_time := now
    update_time := now
    value := Task.recompute_value cfg t cfg.succeeded_status }

/-- Modelled from the spec: the terminal transition after the business
logic fails — retry += 1, status = ignored when the incremented retry
exceeds max_retry and failed otherwise, a structured entry appended to
`errors.history`, lock restored to the unlocked sentinel. -/
def Task.on_failure (cfg : TrackerConfig) (t : Task) (e : ErrorEntry) (now : Nat) : Task :=
  let retry2 := t.retry + 1
  let st := if cfg.max_retry < retry2 then cfg.ignored_status else cfg.failed_status
  { t with
    status := st
    retry := retry2
    errors_history := t.errors_history ++ [e]
    lock := NOT_LOCKED
    lock_time := now
    update_time := now
    value := Task.recompute_value cfg t st }

/-- Modelled from the spec: what the caller's business logic did inside
the scoped execution — completed normally, raised a business error, or
hit an internal error while persisting intermediate state. -/
inductive Outcome where
  | success
  | businessFailure (e : ErrorEntry)
  | internalFailure (e : ErrorEntry)
deriving DecidableEq

/-- Modelled from the spec: the scoped `start()` execution handle as a
whole — acquire the lock, run the business logic, and on every exit path
run the finally-equivalent terminal write; `final_write_ok = false`
models the final status/unlock write itself failing, in which case the
item keeps its in-progress lock until stale-lock reclamation. -/
def execute_scoped (cfg : TrackerConfig) (s : Store) (task_id : String)
    (allowed : List Nat) (nonce now_start now_end : Nat)
    (outcome : Outcome) (final_write_ok : Bool) : Except StartError Store :=
  match Task.start cfg s task_id allowed nonce now_start with
  | (Except.error e, _) => Except.error e
  | (Except.ok t, s2) =>
    if final_write_ok then
      match outcome with
      | Outcome.success => Except.ok (Store.put s2 (Task.on_success cfg t now_end))
      | Outcome.businessFailure e => Except.ok (Store.put s2 (Task.on_failure cfg t e now_end))
      | Outcome.internalFailure e => Except.ok (Store.put s2 (Task.on_failure cfg t e now_end))
    else Except.ok s2

/-- Modelled from the spec: the per-shard range query of the secondary
index — all items whose sortable `value` equals the shard's key fragment
(the store collaborator returns them in index order). -/
def Store.query_value (s : Store) (v : String) : List Task :=
  s.filter (fun t => t.value == v)

/-- Modelled from the spec: `query_by_status` fans out one range query
per shard of the target status and concatenates the per-shard result
sequences. -/
def query_by_status (cfg : TrackerConfig) (s : Store) (st : Nat) : List Task :=
  (List.range (cfg.shard_count_of st)).flatMap
    (fun i => Store.query_value s
      (make_value cfg.use_case_id st i cfg.status_zero_pad cfg.status_shard_zero_pad))

/-- Modelled from the spec: `query_for_unfinished` composes the query over
the pending and failed statuses only, truncated to the requested limit. -/
def query_for_unfinished (cfg : TrackerConfig) (s : Store) (limit : Nat) : List Task :=
  (query_by_status cfg s cfg.pending_status ++ query_by_status cfg s cfg.failed_status).take limit

/-- The tracker configuration of the crawler notebook, verbatim: statuses
10/20/30/40/50, one shard per status, pads of width 3, `max_retry=3`,
`lock_expire_seconds=15`. -/
def crawler_config : TrackerConfig :=
  { use_case_id := "crawler"
    pending_status := 10
    in_progress_status := 20
    failed_status := 30
    succeeded_status := 40
    ignored_status := 50
    n_pending_shard := 1
    n_in_progress_shard := 1
    n_failed_shard := 1
    n_succeeded_shard := 1
    n_ignored_shard := 1
    status_zero_pad := 3
    status_shard_zero_pad := 3
    max_retry := 3
    lock_expire_seconds := 15 }

/-- The table after `make_and_save(task_id="t1")` on an empty table at
second 100, as in the round-trip scenario. -/
def store_after_save : Store :=
  (Task.make_and_save crawler_config [] "t1" 100).2

/-- Projection used to name the store produced by a successful scoped
execution in the concrete round-trip scenario. -/
def run_or_empty (r : Except StartError Store) : Store :=
  match r with
  | Except.ok s => s
  | Except.error _ => []

/-- The table after a successful `start()`/complete cycle on `t1`. -/
def store_after_cycle : Store :=
  run_or_empty (execute_scoped crawler_config store_after_save "t1"
    (default_allowed crawler_config) 1 101 102 Outcome.success true)

/-- A concrete task whose lock is held (token of nonce 0) and was taken at
second 10, used to exercise stale-lock takeover. -/
def locked_task : Task :=
  { Task.make crawler_config "t1" 0 with
    lock := fresh_token 0
    lock_time := 10
    update_time := 10 }

/-- A one-item table holding `locked_task`. -/
def locked_store : Store := [locked_task]

/-- A concrete structured failure record. -/
def sample_error : ErrorEntry :=
  { message := "connection timed out", time := 5, traceback := none }

/-- Concrete invalid construction arguments violating three constraints
at once: missing pending status, negative `max_retry`, and non-positive
`lock_expire_seconds`. -/
def bad_args : TrackerConfigArgs :=
  { use_case_id := "crawler"
    pending_status := none
    in_progress_status := some 20
    failed_status := some 30
    succeeded_status := some 40
    ignored_status := some 50
    n_pending_shard := 1
    n_in_progress_shard := 1
    n_failed_shard := 1
    n_succeeded_shard := 1
    n_ignored_shard := 1
    status_zero_pad := 3
    status_shard_zero_pad := 3
    max_retry := -1
    lock_expire_seconds := 0 }

theorem get_put_same (s : Store) (t : Task) :
    Store.get_one_or_none (Store.put s t) t.key = some t := by
  simp [Store.get_one_or_none, Store.put, List.find?_cons_of_pos]

theorem get_key_of_get (s : Store) (k : String) (t : Task)
    (h : Store.get_one_or_none s k = some t) : t.key = k := by
  have h2 := List.find?_some h
  simpa using h2

theorem fresh_token_inj (m n : Nat) (h : fresh_token m = fresh_token n) : m = n := by
  have h2 : ('L' :: 'K' :: List.replicate m '0') = ('L' :: 'K' :: List.replicate n '0') :=
    congrArg String.data h
  have h3 := congrArg List.length h2
  simpa using h3

theorem fresh_token_ne_not_locked (n : Nat) : fresh_token n ≠ NOT_LOCKED := by
  intro h
  have h2 := congrArg String.length h
  have h3 : n + 2 = 14 := by
    simpa [fresh_token, NOT_LOCKED, String.length] using h2
  have h4 : n = 12 := by omega
  subst h4
  exact absurd h (by decide)

theorem start_ok_pair (cfg : TrackerConfig) (s : Store) (task_id : String)
    (allowed : List Nat) (nonce now : Nat) (t2 : Task)
    (h : (Task.start cfg s task_id allowed nonce now).1 = Except.ok t2) :
    ∃ t0, Store.get_one_or_none s (make_key cfg.use_case_id task_id) = some t0
      ∧ t2 = Task.set_in_progress cfg t0 nonce now
      ∧ Task.start cfg s task_id allowed nonce now = (Except.ok t2, Store.put s t2) := by
  cases hget : Store.get_one_or_none s (make_key cfg.use_case_id task_id) with
  | none => simp only [Task.start, hget] at h; exact absurd h (by simp)
  | some t0 =>
    refine ⟨t0, rfl, ?_⟩
    simp only [Task.start, hget] at h ⊢
    by_cases ha : t0.status ∈ allowed
    · by_cases hl : t0.lock = NOT_LOCKED ∨ t0.lock_time + cfg.lock_expire_seconds < now
      · simp only [if_pos ha, if_pos hl] at h ⊢
        simp at h
        refine ⟨h.symm, ?_⟩
        rw [h]
      · simp [if_pos ha, if_neg hl] at h
    · simp [if_neg ha] at h

theorem execute_scoped_of_start_error (cfg : TrackerConfig) (s : Store) (task_id : String)
    (allowed : List Nat) (nonce now1 now2 : Nat) (outcome : Outcome) (b : Bool)
    (e : StartError) (sb : Store)
    (h : Task.start cfg s task_id allowed nonce now1 = (Except.error e, sb)) :
    execute_scoped cfg s task_id allowed nonce now1 now2 outcome b = Except.error e := by
  unfold execute_scoped
  rw [h]

theorem execute_scoped_of_start_ok_true (cfg : TrackerConfig) (s : Store) (task_id : String)
    (allowed : List Nat) (nonce now1 now2 : Nat) (outcome : Outcome)
    (t1 : Task) (s1 : Store)
    (h : Task.start cfg s task_id allowed nonce now1 = (Except.ok t1, s1)) :
    execute_scoped cfg s task_id allowed nonce now1 now2 outcome true =
      Except.ok (Store.put s1
        (match outcome with
          | Outcome.success => Task.on_success cfg t1 now2
          | Outcome.businessFailure e => Task.on_failure cfg t1 e now2
          | Outcome.internalFailure e => Task.on_failure cfg t1 e now2)) := by
  unfold execute_scoped
  rw [h]
  cases outcome <;> simp

theorem execute_scoped_of_start_ok_false (cfg : TrackerConfig) (s : Store) (task_id : String)
    (allowed : List Nat) (nonce now1 now2 : Nat) (outcome : Outcome)
    (t1 : Task) (s1 : Store)
    (h : Task.start cfg s task_id allowed nonce now1 = (Except.ok t1, s1)) :
    execute_scoped cfg s task_id allowed nonce now1 now2 outcome false = Except.ok s1 := by
  unfold execute_scoped
  rw [h]
  simp

theorem singleton_ite_nil_iff (c : Prop) [Decidable c] (e : ConfigError) :
    ((if c then [e] else []) = []) ↔ ¬ c := by
  split <;> simp_all

theorem validate_nil_iff (a : TrackerConfigArgs) :
    validate_config a = [] ↔
      (a.pending_status.isSome ∧ a.in_progress_status.isSome ∧ a.failed_status.isSome
        ∧ a.succeeded_status.isSome ∧ a.ignored_status.isSome
        ∧ 0 < a.n_pending_shard ∧ 0 < a.n_in_progress_shard ∧ 0 < a.n_failed_shard
        ∧ 0 < a.n_succeeded_shard ∧ 0 < a.n_ignored_shard
        ∧ 0 ≤ a.max_retry ∧ 0 < a.lock_expire_seconds) := by
  simp only [validate_config, List.append_eq_nil, singleton_ite_nil_iff]
  simp [Option.isNone_iff_eq_none, Option.isSome_iff_ne_none, not_le, not_lt]
  tauto

theorem make_ok_iff_validate_nil (a : TrackerConfigArgs) :
    (∃ cfg, TrackerConfig.make a = Except.ok cfg) ↔ validate_config a = [] := by
  unfold TrackerConfig.make
  cases h : validate_config a with
  | nil => simp
  | cons e es => simp

theorem make_error_eq_validate (a : TrackerConfigArgs) (errs : List ConfigError)
    (h : TrackerConfig.make a = Except.error errs) : errs = validate_config a := by
  revert h
  unfold TrackerConfig.make
  cases hv : validate_config a with
  | nil => intro h; exact absurd h (by simp)
  | cons e es => intro h; simpa using h.symm

/-- Claim C1: two `start()` calls racing on the same pending, unlocked
task — each being a single atomic conditional write, so interleavings
coincide with serializations, quantified here over both call parameter
sets — end with exactly one winner: the first serialized call succeeds
and transitions the task to in-progress, the second raises the
not-startable error without mutating the table, and neither the `retry`
nor the `status` field is corrupted (retry is unchanged, status is
exactly the in-progress code, and the winner holds the fresh token). -/
theorem claim_C1_start_mutual_exclusion (cfg : TrackerConfig) (s : Store) (task_id : String)
    (n1 n2 now1 now2 : Nat) (t : Task)
    (hget : Store.get_one_or_none s (make_key cfg.use_case_id task_id) = some t)
    (hpend : t.status = cfg.pending_status)
    (hunlocked : t.lock = NOT_LOCKED)
    (h1 : cfg.in_progress_status ≠ cfg.pending_status)
    (h2 : cfg.in_progress_status ≠ cfg.failed_status) :
    ∃ t1,
      (Task.start cfg s task_id (default_allowed cfg) n1 now1).1 = Except.ok t1
      ∧ (Task.start cfg (Task.start cfg s task_id (default_allowed cfg) n1 now1).2
          task_id (default_allowed cfg) n2 now2).1 = Except.error StartError.taskNotStartableError
      ∧ (Task.start cfg (Task.start cfg s task_id (default_allowed cfg) n1 now1).2
          task_id (default_allowed cfg) n2 now2).2 =
          (Task.start cfg s task_id (default_allowed cfg) n1 now1).2
      ∧ Store.get_one_or_none (Task.start cfg s task_id (default_allowed cfg) n1 now1).2
          (make_key cfg.use_case_id task_id) = some t1
      ∧ t1.status = cfg.in_progress_status
      ∧ t1.retry = t.retry
      ∧ t1.lock = fresh_token n1 := by
  have ha : t.status ∈ default_allowed cfg := by
    simp [default_allowed, hpend]
  have hl : t.lock = NOT_LOCKED ∨ t.lock_time + cfg.lock_expire_seconds < now1 := Or.inl hunlocked
  have hkey : t.key = make_key cfg.use_case_id task_id := get_key_of_get s _ t hget
  refine ⟨Task.set_in_progress cfg t n1 now1, ?_, ?_, ?_, ?_, rfl, rfl, rfl⟩
  · simp [Task.start, hget, ha, hl]
  · have hs2 : (Task.start cfg s task_id (default_allowed cfg) n1 now1).2 =
        Store.put s (Task.set_in_progress cfg t n1 now1) := by
      simp [Task.start, hget, ha, hl]
    rw [hs2]
    have hget2 : Store.get_one_or_none (Store.put s (Task.set_in_progress cfg t n1 now1))
        (make_key cfg.use_case_id task_id) = some (Task.set_in_progress cfg t n1 now1) := by
      have hk2 : (Task.set_in_progress cfg t n1 now1).key = make_key cfg.use_case_id task_id := by
        simp [Task.set_in_progress, hkey]
      rw [← hk2]
      exact get_put_same s _
    have hna : (Task.set_in_progress cfg t n1 now1).status ∉ default_allowed cfg := by
      simp [Task.set_in_progress, default_allowed, h1, h2]
    simp [Task.start, hget2, hna]
  · have hs2 : (Task.start cfg s task_id (default_allowed cfg) n1 now1).2 =
        Store.put s (Task.set_in_progress cfg t n1 now1) := by
      simp [Task.start, hget, ha, hl]
    rw [hs2]
    have hget2 : Store.get_one_or_none (Store.put s (Task.set_in_progress cfg t n1 now1))
        (make_key cfg.use_case_id task_id) = some (Task.set_in_progress cfg t n1 now1) := by
      have hk2 : (Task.set_in_progress cfg t n1 now1).key = make_key cfg.use_case_id task_id := by
        simp [Task.set_in_progress, hkey]
      rw [← hk2]
      exact get_put_same s _
    have hna : (Task.set_in_progress cfg t n1 now1).status ∉ default_allowed cfg := by
      simp [Task.set_in_progress, default_allowed, h1, h2]
    simp [Task.start, hget2, hna]
  · have hs2 : (Task.start cfg s task_id (default_allowed cfg) n1 now1).2 =
        Store.put s (Task.set_in_progress cfg t n1 now1) := by
      simp [Task.start, hget, ha, hl]
    rw [hs2]
    have hk2 : (Task.set_in_progress cfg t n1 now1).key = make_key cfg.use_case_id task_id := by
      simp [Task.set_in_progress, hkey]
    rw [← hk2]
    exact get_put_same s _

/-- Witness for C1: on the notebook's pending crawler task, the first
racing call wins and the second raises the not-startable error. -/
theorem claim_C1_start_mutual_exclusion_witness :
    (Store.get_one_or_none store_after_save (make_key crawler_config.use_case_id "t1")
        = some (Task.make crawler_config "t1" 100))
    ∧ ∃ t1,
        (Task.start crawler_config store_after_save "t1"
          (default_allowed crawler_config) 5 101).1 = Except.ok t1
        ∧ (Task.start crawler_config
            (Task.start crawler_config store_after_save "t1"
              (default_allowed crawler_config) 5 101).2
            "t1" (default_allowed crawler_config) 6 102).1
          = Except.error StartError.taskNotStartableError := by
  refine ⟨by decide, ?_⟩
  obtain ⟨t1, hok, hfail, hrest⟩ :=
    claim_C1_start_mutual_exclusion crawler_config store_after_save "t1" 5 6 101 102
      (Task.make crawler_config "t1" 100) (by decide) (by decide) (by decide)
      (by decide) (by decide)
  exact ⟨t1, hok, hfail⟩

/-- Claim C2: on a present task, `start()` acquires the lock exactly when
the status is in the allowed-start set and the lock equals the unlocked
sentinel or `lock_time` is older than `lock_expire_seconds`; in
particular a stale-locked task is startable and the new caller receives
the fresh token of its own nonce, different from any token drawn from a
different nonce. -/
theorem claim_C2_start_lockability (cfg : TrackerConfig) (s : Store) (task_id : String)
    (allowed : List Nat) (nonce now : Nat) (t : Task)
    (hget : Store.get_one_or_none s (make_key cfg.use_case_id task_id) = some t) :
    ((∃ t2, (Task.start cfg s task_id allowed nonce now).1 = Except.ok t2) ↔
      (t.status ∈ allowed ∧ (t.lock = NOT_LOCKED ∨ t.lock_time + cfg.lock_expire_seconds < now)))
    ∧ (t.status ∈ allowed → t.lock_time + cfg.lock_expire_seconds < now →
        ∃ t2, (Task.start cfg s task_id allowed nonce now).1 = Except.ok t2
          ∧ t2.lock = fresh_token nonce
          ∧ ∀ m, t.lock = fresh_token m → m ≠ nonce → t2.lock ≠ t.lock) := by
  constructor
  · by_cases ha : t.status ∈ allowed
    · by_cases hl : t.lock = NOT_LOCKED ∨ t.lock_time + cfg.lock_expire_seconds < now
      · simp [Task.start, hget, ha, hl]
      · simp [Task.start, hget, ha, if_neg hl]
        exact ⟨fun hc => hl (Or.inl hc), Nat.not_lt.mp (fun hc => hl (Or.inr hc))⟩
    · simp [Task.start, hget, ha]
  · intro ha hstale
    have hl : t.lock = NOT_LOCKED ∨ t.lock_time + cfg.lock_expire_seconds < now := Or.inr hstale
    refine ⟨Task.set_in_progress cfg t nonce now, ?_, rfl, ?_⟩
    · simp [Task.start, hget, ha, hl]
    · intro m hm hmn
      simp only [Task.set_in_progress]
      rw [hm]
      intro hc
      exact hmn (fresh_token_inj m nonce (hc.symm))

/-- Witness for C2: a task locked since second 10 with
`lock_expire_seconds = 15` is startable at second 100 by a caller with
nonce 1, who receives a token different from the stale holder's. -/
theorem claim_C2_start_lockability_witness :
    (Store.get_one_or_none locked_store (make_key crawler_config.use_case_id "t1")
        = some locked_task)
    ∧ ∃ t2, (Task.start crawler_config locked_store "t1"
          (default_allowed crawler_config) 1 100).1 = Except.ok t2
        ∧ t2.lock = fresh_token 1
        ∧ t2.lock ≠ locked_task.lock := by
  refine ⟨by decide, ?_⟩
  obtain ⟨t2, hok, htok, hdiff⟩ :=
    (claim_C2_start_lockability crawler_config locked_store "t1"
      (default_allowed crawler_config) 1 100 locked_task (by decide)).2
      (by decide) (by decide)
  exact ⟨t2, hok, htok, hdiff 0 rfl (by decide)⟩

/-- Claim C3: the failure transition of an in-progress task increments
`retry` by exactly one, lands in the ignored status exactly when the
incremented retry exceeds `max_retry` (equivalently, when the old retry
already reached `max_retry`) and in the failed status exactly when the
old retry was still below `max_retry`, appends the structured entry to
`errors.history`, and restores the unlocked sentinel. -/
theorem claim_C3_failure_transition (cfg : TrackerConfig) (t : Task) (e : ErrorEntry) (now : Nat)
    (hne : cfg.failed_status ≠ cfg.ignored_status) :
    (Task.on_failure cfg t e now).retry = t.retry + 1
    ∧ ((Task.on_failure cfg t e now).status = cfg.ignored_status ↔ cfg.max_retry ≤ t.retry)
    ∧ ((Task.on_failure cfg t e now).status = cfg.failed_status ↔ t.retry < cfg.max_retry)
    ∧ (Task.on_failure cfg t e now).errors_history = t.errors_history ++ [e]
    ∧ (Task.on_failure cfg t e now).lock = NOT_LOCKED := by
  refine ⟨rfl, ?_, ?_, rfl, rfl⟩ <;>
    simp only [Task.on_failure] <;>
    by_cases hr : cfg.max_retry < t.retry + 1
  · simp [hr, Nat.lt_succ_iff.mp hr]
  · simp [hr, Ne.symm hne]
    omega
  · simp [hr, hne]
    omega
  · simp [hr]
    omega

/-- Witness for C3: with the notebook configuration (`max_retry = 3`,
failed = 30 ≠ ignored = 50), a failing fresh task (retry 0) moves to
failed with retry 1. -/
theorem claim_C3_failure_transition_witness :
    (crawler_config.failed_status ≠ crawler_config.ignored_status)
    ∧ (Task.on_failure crawler_config (Task.make crawler_config "t1" 0) sample_error 5).retry
        = (Task.make crawler_config "t1" 0).retry + 1
    ∧ ((Task.on_failure crawler_config (Task.make crawler_config "t1" 0) sample_error 5).status
        = crawler_config.failed_status
        ↔ (Task.make crawler_config "t1" 0).retry < crawler_config.max_retry) := by
  obtain ⟨hretry, hign, hfail, hrest⟩ :=
    claim_C3_failure_transition crawler_config (Task.make crawler_config "t1" 0)
      sample_error 5 (by decide)
  exact ⟨by decide, hretry, hfail⟩

/-- Claim C4: the shard assignment function equals
`stable_hash(task_id) mod shard_count`, its result lies in
`[0, shard_count)` whenever the count is at least one, and it is
deterministic and independent of wall-clock time: the rendered `value` of
a task made from the same task id at any two times is identical. -/
theorem claim_C4_shard_assignment (task_id : String) (n : Nat) (h : 1 ≤ n)
    (cfg : TrackerConfig) (now1 now2 : Nat) :
    get_shard_index task_id n = stable_hash task_id % n
    ∧ get_shard_index task_id n < n
    ∧ (Task.make cfg task_id now1).value = (Task.make cfg task_id now2).value :=
  ⟨rfl, Nat.mod_lt _ h, rfl⟩

/-- Witness for C4: sharding the notebook's task id over 3 shards. -/
theorem claim_C4_shard_assignment_witness :
    1 ≤ 3
    ∧ (get_shard_index "t1" 3 = stable_hash "t1" % 3
      ∧ get_shard_index "t1" 3 < 3
      ∧ (Task.make crawler_config "t1" 0).value = (Task.make crawler_config "t1" 999).value) :=
  ⟨by decide, claim_C4_shard_assignment "t1" 3 (by decide) crawler_config 0 999⟩

/-- Claim C5: when the scoped execution's terminal write goes through,
the task found at the key afterwards is never in progress and carries the
unlocked sentinel, on every exit path (normal completion, business
failure, internal failure while persisting); when the final unlock write
itself fails, the task stays in progress but becomes startable again by
any caller whose allowed set covers in-progress once the lock has passed
`lock_expire_seconds` (stale-lock self-healing). -/
theorem claim_C5_scoped_execution_releases_lock (cfg : TrackerConfig) (s : Store)
    (task_id : String) (allowed : List Nat) (nonce now1 now2 : Nat) (outcome : Outcome)
    (hip_f : cfg.in_progress_status ≠ cfg.failed_status)
    (hip_s : cfg.in_progress_status ≠ cfg.succeeded_status)
    (hip_i : cfg.in_progress_status ≠ cfg.ignored_status) :
    (∀ s2, execute_scoped cfg s task_id allowed nonce now1 now2 outcome true = Except.ok s2 →
      ∀ t2, Store.get_one_or_none s2 (make_key cfg.use_case_id task_id) = some t2 →
        t2.status ≠ cfg.in_progress_status ∧ t2.lock = NOT_LOCKED)
    ∧ (∀ s2, execute_scoped cfg s task_id allowed nonce now1 now2 outcome false = Except.ok s2 →
      ∀ t2, Store.get_one_or_none s2 (make_key cfg.use_case_id task_id) = some t2 →
        t2.status = cfg.in_progress_status
          ∧ ∀ allowed2 nonce2 now3, cfg.in_progress_status ∈ allowed2 →
              t2.lock_time + cfg.lock_expire_seconds < now3 →
              ∃ t3, (Task.start cfg s2 task_id allowed2 nonce2 now3).1 = Except.ok t3) := by
  rcases hp : Task.start cfg s task_id allowed nonce now1 with ⟨res, sb⟩
  cases res with
  | error e =>
    have hf := execute_scoped_of_start_error cfg s task_id allowed nonce now1 now2 outcome true e sb hp
    have hf2 := execute_scoped_of_start_error cfg s task_id allowed nonce now1 now2 outcome false e sb hp
    constructor
    · intro s2 hex
      rw [hf] at hex
      exact absurd hex (by simp)
    · intro s2 hex
      rw [hf2] at hex
      exact absurd hex (by simp)
  | ok t1 =>
    have hst : (Task.start cfg s task_id allowed nonce now1).1 = Except.ok t1 := by rw [hp]
    obtain ⟨t0, hget0, ht1, hpair⟩ := start_ok_pair cfg s task_id allowed nonce now1 t1 hst
    have hsb : sb = Store.put s t1 := by
      rw [hp] at hpair
      exact congrArg Prod.snd hpair
    have hkey0 : t0.key = make_key cfg.use_case_id task_id := get_key_of_get s _ t0 hget0
    have hkey1 : t1.key = make_key cfg.use_case_id task_id := by
      rw [ht1]; simp [Task.set_in_progress, hkey0]
    constructor
    · intro s2 hex t2 hget2
      have hrun := execute_scoped_of_start_ok_true cfg s task_id allowed nonce now1 now2 outcome
        t1 (Store.put s t1) (by rw [hp, hsb])
      rw [hrun] at hex
      injection hex with hex2
      subst hex2
      cases outcome with
      | success =>
        have hk : (Task.on_success cfg t1 now2).key = make_key cfg.use_case_id task_id := by
          simp [Task.on_success, hkey1]
        rw [← hk, get_put_same] at hget2
        have ht2 : t2 = Task.on_success cfg t1 now2 := by injection hget2.symm
        rw [ht2]
        refine ⟨?_, rfl⟩
        simp only [Task.on_success]
        exact fun hc => hip_s hc.symm
      | businessFailure e =>
        have hk : (Task.on_failure cfg t1 e now2).key = make_key cfg.use_case_id task_id := by
          simp [Task.on_failure, hkey1]
        rw [← hk, get_put_same] at hget2
        have ht2 : t2 = Task.on_failure cfg t1 e now2 := by injection hget2.symm
        rw [ht2]
        refine ⟨?_, rfl⟩
        simp only [Task.on_failure]
        by_cases hr : cfg.max_retry < t1.retry + 1
        · simp only [if_pos hr]
          exact fun hc => hip_i hc.symm
        · simp only [if_neg hr]
          exact fun hc => hip_f hc.symm
      | internalFailure e =>
        have hk : (Task.on_failure cfg t1 e now2).key = make_key cfg.use_case_id task_id := by
          simp [Task.on_failure, hkey1]
        rw [← hk, get_put_same] at hget2
        have ht2 : t2 = Task.on_failure cfg t1 e now2 := by injection hget2.symm
        rw [ht2]
        refine ⟨?_, rfl⟩
        simp only [Task.on_failure]
        by_cases hr : cfg.max_retry < t1.retry + 1
        · simp only [if_pos hr]
          exact fun hc => hip_i hc.symm
        · simp only [if_neg hr]
          exact fun hc => hip_f hc.symm
    · intro s2 hex t2 hget2
      have hrun := execute_scoped_of_start_ok_false cfg s task_id allowed nonce now1 now2 outcome
        t1 (Store.put s t1) (by rw [hp, hsb])
      rw [hrun] at hex
      injection hex with hex2
      subst hex2
      rw [← hkey1, get_put_same] at hget2
      injection hget2 with hget2a
      subst hget2a
      constructor
      · rw [ht1]; rfl
      · intro allowed2 nonce2 now3 hmem hstale
        have hget3 : Store.get_one_or_none (Store.put s t1) (make_key cfg.use_case_id task_id)
            = some t1 := by
          rw [← hkey1]
          exact get_put_same s t1
        have ha2 : t1.status ∈ allowed2 := by
          rw [ht1]
          simpa [Task.set_in_progress] using hmem
        have hl2 : t1.lock = NOT_LOCKED ∨ t1.lock_time + cfg.lock_expire_seconds < now3 :=
          Or.inr hstale
        exact ⟨Task.set_in_progress cfg t1 nonce2 now3, by simp [Task.start, hget3, ha2, hl2]⟩

/-- Witness for C5: the crawler configuration has pairwise distinct
terminal and in-progress codes, so the release guarantee applies to a
business failure on the saved notebook task. -/
theorem claim_C5_scoped_execution_releases_lock_witness :
    (crawler_config.in_progress_status ≠ crawler_config.failed_status
      ∧ crawler_config.in_progress_status ≠ crawler_config.succeeded_status
      ∧ crawler_config.in_progress_status ≠ crawler_config.ignored_status)
    ∧ (∀ s2, execute_scoped crawler_config store_after_save "t1"
          (default_allowed crawler_config) 1 101 102 (Outcome.businessFailure sample_error) true
          = Except.ok s2 →
        ∀ t2, Store.get_one_or_none s2 (make_key crawler_config.use_case_id "t1") = some t2 →
          t2.status ≠ crawler_config.in_progress_status ∧ t2.lock = NOT_LOCKED) :=
  ⟨⟨by decide, by decide, by decide⟩,
    (claim_C5_scoped_execution_releases_lock crawler_config store_after_save "t1"
      (default_allowed crawler_config) 1 101 102 (Outcome.businessFailure sample_error)
      (by decide) (by decide) (by decide)).1⟩

/-- Claim C6: `start()` raises the not-found error exactly when the key
is absent, the not-startable error exactly when the task is present with
a status outside the allowed-start set, and the locked error exactly when
the task is present, startable by status, but its lock is held and not
stale; and on every error the table is left unchanged. -/
theorem claim_C6_start_error_taxonomy (cfg : TrackerConfig) (s : Store) (task_id : String)
    (allowed : List Nat) (nonce now : Nat) :
    ((Task.start cfg s task_id allowed nonce now).1 = Except.error StartError.taskNotFoundError ↔
      Store.get_one_or_none s (make_key cfg.use_case_id task_id) = none)
    ∧ ((Task.start cfg s task_id allowed nonce now).1 = Except.error StartError.taskNotStartableError ↔
      ∃ t, Store.get_one_or_none s (make_key cfg.use_case_id task_id) = some t ∧ t.status ∉ allowed)
    ∧ ((Task.start cfg s task_id allowed nonce now).1 = Except.error StartError.taskLockedError ↔
      ∃ t, Store.get_one_or_none s (make_key cfg.use_case_id task_id) = some t ∧ t.status ∈ allowed
        ∧ t.lock ≠ NOT_LOCKED ∧ ¬ (t.lock_time + cfg.lock_expire_seconds < now))
    ∧ (∀ e, (Task.start cfg s task_id allowed nonce now).1 = Except.error e →
        (Task.start cfg s task_id allowed nonce now).2 = s) := by
  cases hget : Store.get_one_or_none s (make_key cfg.use_case_id task_id) with
  | none => simp [Task.start, hget]
  | some t =>
    by_cases ha : t.status ∈ allowed
    · by_cases hl : t.lock = NOT_LOCKED ∨ t.lock_time + cfg.lock_expire_seconds < now
      · simp [Task.start, hget, ha, hl]
        tauto
      · have hl1 : t.lock ≠ NOT_LOCKED := fun hc => hl (Or.inl hc)
        have hl2 : ¬ (t.lock_time + cfg.lock_expire_seconds < now) := fun hc => hl (Or.inr hc)
        simp [Task.start, hget, ha, if_neg hl]
        exact ⟨hl1, Nat.not_lt.mp hl2⟩
    · simp [Task.start, hget, ha]

/-- Witness for C6: on the one-item locked table, starting an absent task
id raises not-found, and starting the held, non-stale task at second 20
raises the locked error. -/
theorem claim_C6_start_error_taxonomy_witness :
    (Task.start crawler_config locked_store "missing"
      (default_allowed crawler_config) 1 100).1 = Except.error StartError.taskNotFoundError
    ∧ (Task.start crawler_config locked_store "t1"
      (default_allowed crawler_config) 1 20).1 = Except.error StartError.taskLockedError := by
  constructor
  · exact (claim_C6_start_error_taxonomy crawler_config locked_store "missing"
      (default_allowed crawler_config) 1 100).1.mpr (by decide)
  · exact (claim_C6_start_error_taxonomy crawler_config locked_store "t1"
      (default_allowed crawler_config) 1 20).2.2.1.mpr
      ⟨locked_task, by decide, by decide, by decide, by decide⟩

/-- Claim C7: the concrete round trip of the notebook scenario —
`make_and_save(task_id="t1")` on an empty table makes `t1` the sole
result of `query_for_unfinished`, and after a successful scoped
`start()`/complete cycle `t1` is absent from `query_for_unfinished` and
is the sole result of `query_by_status` on the succeeded status. -/
theorem claim_C7_query_round_trip :
    ((query_for_unfinished crawler_config store_after_save 10).map Task.key
      = [make_key "crawler" "t1"])
    ∧ (execute_scoped crawler_config store_after_save "t1"
        (default_allowed crawler_config) 1 101 102 Outcome.success true
        = Except.ok store_after_cycle)
    ∧ query_for_unfinished crawler_config store_after_cycle 10 = []
    ∧ ((query_by_status crawler_config store_after_cycle
          crawler_config.succeeded_status).map Task.key
      = [make_key "crawler" "t1"]) :=
  ⟨by decide, rfl, by decide, by decide⟩

/-- Claim C8: every task freshly written by `make_and_save` is read back
with the pending status code, the unlocked sentinel, and retry 0. -/
theorem claim_C8_make_and_save_initial_state (cfg : TrackerConfig) (s : Store)
    (task_id : String) (now : Nat) :
    Store.get_one_or_none (Task.make_and_save cfg s task_id now).2
        (make_key cfg.use_case_id task_id)
      = some (Task.make_and_save cfg s task_id now).1
    ∧ (Task.make_and_save cfg s task_id now).1.status = cfg.pending_status
    ∧ (Task.make_and_save cfg s task_id now).1.lock = NOT_LOCKED
    ∧ (Task.make_and_save cfg s task_id now).1.retry = 0 := by
  refine ⟨?_, rfl, rfl, rfl⟩
  exact get_put_same s (Task.make cfg task_id now)

/-- Claim C9: configuration construction validates presence of all
required statuses, positivity of every shard count, `max_retry ≥ 0` and
`lock_expire_seconds > 0`; it succeeds exactly when all constraints hold,
and on failure the `InvalidConfigError` report contains one entry for
every violated constraint, not only the first. -/
theorem claim_C9_config_validation (a : TrackerConfigArgs) :
    ((∃ cfg, TrackerConfig.make a = Except.ok cfg) ↔
      (a.pending_status.isSome ∧ a.in_progress_status.isSome ∧ a.failed_status.isSome
        ∧ a.succeeded_status.isSome ∧ a.ignored_status.isSome
        ∧ 0 < a.n_pending_shard ∧ 0 < a.n_in_progress_shard ∧ 0 < a.n_failed_shard
        ∧ 0 < a.n_succeeded_shard ∧ 0 < a.n_ignored_shard
        ∧ 0 ≤ a.max_retry ∧ 0 < a.lock_expire_seconds))
    ∧ (∀ errs, TrackerConfig.make a = Except.error errs →
        ((a.pending_status = none → ConfigError.missing_status "pending" ∈ errs)
          ∧ (a.in_progress_status = none → ConfigError.missing_status "in_progress" ∈ errs)
          ∧ (a.failed_status = none → ConfigError.missing_status "failed" ∈ errs)
          ∧ (a.succeeded_status = none → ConfigError.missing_status "succeeded" ∈ errs)
          ∧ (a.ignored_status = none → ConfigError.missing_status "ignored" ∈ errs)
          ∧ (a.n_pending_shard ≤ 0 → ConfigError.non_positive_shard_count "pending" ∈ errs)
          ∧ (a.n_in_progress_shard ≤ 0 → ConfigError.non_positive_shard_count "in_progress" ∈ errs)
          ∧ (a.n_failed_shard ≤ 0 → ConfigError.non_positive_shard_count "failed" ∈ errs)
          ∧ (a.n_succeeded_shard ≤ 0 → ConfigError.non_positive_shard_count "succeeded" ∈ errs)
          ∧ (a.n_ignored_shard ≤ 0 → ConfigError.non_positive_shard_count "ignored" ∈ errs)
          ∧ (a.max_retry < 0 → ConfigError.negative_max_retry ∈ errs)
          ∧ (a.lock_expire_seconds ≤ 0 → ConfigError.non_positive_lock_expire ∈ errs))) := by
  constructor
  · rw [make_ok_iff_validate_nil, validate_nil_iff]
  · intro errs herr
    have he : errs = validate_config a := make_error_eq_validate a errs herr
    subst he
    refine ⟨?_, ?_, ?_, ?_, ?_, ?_, ?_, ?_, ?_, ?_, ?_, ?_⟩ <;>
      intro h <;> simp [validate_config, h]

/-- Witness for C9: construction on `bad_args` fails and the report lists
all three violated constraints at once. -/
theorem claim_C9_config_validation_witness :
    bad_args.pending_status = none
    ∧ ∃ errs, TrackerConfig.make bad_args = Except.error errs
        ∧ ConfigError.missing_status "pending" ∈ errs
        ∧ ConfigError.negative_max_retry ∈ errs
        ∧ ConfigError.non_positive_lock_expire ∈ errs := by
  refine ⟨rfl, validate_config bad_args, rfl, ?_⟩
  obtain ⟨hp, hip, hf, hs, hi, hsp, hsip, hsf, hss, hsi, hmr, hle⟩ :=
    (claim_C9_config_validation bad_args).2 (validate_config bad_args) rfl
  exact ⟨hp rfl, hmr (by decide), hle (by decide)⟩

/-- Claim C10: the unlocked sentinel is the literal `"__not_locked__"`, a
freshly made task's `lock_time` is the Unix epoch (second 0) while its
lock is the sentinel — so at any check time beyond `lock_expire_seconds`
both disjuncts of the lockability predicate hold — and both completed
transitions out of in-progress restore the sentinel. -/
theorem claim_C10_unlocked_sentinel (cfg : TrackerConfig) (task_id : String)
    (now check_time now2 : Nat) (t : Task) (e : ErrorEntry)
    (h : cfg.lock_expire_seconds < check_time) :
    NOT_LOCKED = "__not_locked__"
    ∧ (Task.make cfg task_id now).lock_time = EPOCH
    ∧ EPOCH = 0
    ∧ (Task.make cfg task_id now).lock = NOT_LOCKED
    ∧ (Task.make cfg task_id now).lock_time + cfg.lock_expire_seconds < check_time
    ∧ (Task.on_success cfg t now2).lock = NOT_LOCKED
    ∧ (Task.on_failure cfg t e now2).lock = NOT_LOCKED := by
  refine ⟨rfl, rfl, rfl, rfl, ?_, rfl, rfl⟩
  simpa [Task.make, EPOCH] using h

/-- Witness for C10: with the crawler configuration
(`lock_expire_seconds = 15`) at check time 100. -/
theorem claim_C10_unlocked_sentinel_witness :
    crawler_config.lock_expire_seconds < 100
    ∧ (NOT_LOCKED = "__not_locked__"
      ∧ (Task.make crawler_config "t1" 42).lock_time = EPOCH
      ∧ EPOCH = 0
      ∧ (Task.make crawler_config "t1" 42).lock = NOT_LOCKED
      ∧ (Task.make crawler_config "t1" 42).lock_time + crawler_config.lock_expire_seconds < 100
      ∧ (Task.on_success crawler_config locked_task 60).lock = NOT_LOCKED
      ∧ (Task.on_failure crawler_config locked_task sample_error 60).lock = NOT_LOCKED) :=
  ⟨by decide,
    claim_C10_unlocked_sentinel crawler_config "t1" 42 100 60 locked_task sample_error
      (by decide)⟩

end StatusTracker
